import Mathlib

/-!
Verification development for the osc-as repository: a packaging/installation
pipeline for Open Stage Control (download, unzip, npm install/build/package,
copy into /Applications, cleanup), plus a SemVer parser and a Dep wrapper.

The Python code is shallowly embedded as follows.

A filesystem path is a list of components (`P`).  The mutable state touched
by the program is a `World`: the filesystem (modelled as the strict-resolve
function used by Path.resolve(strict=True) and Path.exists()), the current
working directory, the process environment, and a trace of the external
effects that were performed.  External collaborators (curl, unzip, npm,
urlopen, shutil.rmtree/copytree, Path.unlink) are opaque per the spec, so
their outcomes are supplied by an `Oracle`; the code around them (branching,
exception handling, aggregation) is translated line by line.

A Python function that may both raise and return is embedded in the monad
shape `World -> Except (PyExn x World) (result x World)`: `Except.error`
means an exception propagated out of the function (a Python raise that the
function did not catch), while the returned `Option PyExn` inside
`Except.ok` is the function's ordinary return value (these functions return
the exception instead of raising it).
-/

/-- Exception values thrown or returned by the embedded code, tagged by the
Python exception class so that the class-based except-clauses can be
translated faithfully. -/
inductive PyExn where
  | urlError (msg : String)
  | timeoutError (msg : String)
  | valueError (msg : String)
  | genericExc (msg : String)
  | calledProcessError (cmd : List String)
  | fileNotFoundError (path : List String)
  | fileExistsError (path : List String)
  | osError (msg : String)
  deriving DecidableEq, Repr

/-- Membership of an exception in the subprocess.CalledProcessError class. -/
def PyExn.isCalledProcessError : PyExn → Bool
  | .calledProcessError _ => true
  | _ => false

/-- Membership of an exception in the OSError class: URLError, TimeoutError,
FileNotFoundError and FileExistsError are OSError subclasses in Python. -/
def PyExn.isOSError : PyExn → Bool
  | .urlError _ => true
  | .timeoutError _ => true
  | .fileNotFoundError _ => true
  | .fileExistsError _ => true
  | .osError _ => true
  | _ => false

/-- Membership of an exception in the FileExistsError class. -/
def PyExn.isFileExistsError : PyExn → Bool
  | .fileExistsError _ => true
  | _ => false

/-- Membership of an exception in the FileNotFoundError class. -/
def PyExn.isFileNotFoundError : PyExn → Bool
  | .fileNotFoundError _ => true
  | _ => false

/-- A filesystem path, as its list of components from the root. -/
abbrev P := List String

/-- Rendering of a path the way str(Path) renders an absolute path, used when
a Path object is passed as a command-line argument. -/
def pathStr (p : P) : String :=
  p.foldl (fun a c => a ++ "/" ++ c) ""

/-- External effects recorded while the pipeline runs. -/
inductive Event where
  | chdir (p : P)
  | run (cmd : List String) (env : List (String × String))
  | mkdirp (p : P)
  | rmtree (p : P)
  | unlink (p : P)
  | copytree (src dst : P)
  deriving DecidableEq, Repr

/-- The mutable state of a run: the filesystem as the function computed by
Path.resolve(strict=True) (`none` when resolving raises FileNotFoundError,
which also models Path.exists() returning False), the working directory, the
process environment os.environ, and the trace of external effects. -/
structure World where
  fs : P → Option P
  cwd : P
  env : List (String × String)
  trace : List Event

/-- Path.exists(): strict resolution succeeds. -/
def wexists (w : World) (p : P) : Bool :=
  (w.fs p).isSome

/-- Monad shape of the embedded functions: Except.error is an uncaught
Python raise, Except.ok the ordinary return value. -/
abbrev M (α : Type) := World → Except (PyExn × World) (α × World)

/-- Outcome of one subprocess.run call, supplied by the oracle: the new
filesystem on normal completion, or a raised exception. -/
inductive RunOutcome where
  | ok (newFs : P → Option P)
  | raised (e : PyExn)

/-- Outcome of urlparse plus urlopen inside _test_url, supplied by the
oracle: an exception from parsing, an exception from opening, or a response
with a status code. -/
inductive UrlOutcome where
  | parseErr (e : PyExn)
  | openErr (e : PyExn)
  | response (status : Nat)

/-- Behaviour of the external collaborators (network, subprocesses, the
shutil tree operations), which the spec treats as opaque. -/
structure Oracle where
  urlBehavior : String → UrlOutcome
  runCmd : List String → List (String × String) → (P → Option P) → RunOutcome
  rmtreeOutcome : P → (P → Option P) → Option PyExn
  unlinkOutcome : P → (P → Option P) → Option PyExn
  copytreeOutcome : P → P → (P → Option P) → Option PyExn

/-- Filesystem effect of a successful shutil.rmtree: the directory and
everything under it stop existing. -/
def rmtreeFs (d : P) (fs : P → Option P) : P → Option P :=
  fun p => if d.isPrefixOf p then none else fs p

/-- Filesystem effect of a successful Path.unlink: the single file stops
existing. -/
def unlinkFs (f : P) (fs : P → Option P) : P → Option P :=
  fun p => if p = f then none else fs p

/-- Filesystem effect of Path.mkdir(parents=True, exist_ok=True): the
directory and all its ancestors exist afterwards. -/
def mkdirpFs (d : P) (fs : P → Option P) : P → Option P :=
  fun p => if p.isPrefixOf d then some p else fs p

/-- Filesystem effect of a successful shutil.copytree(src, dst,
dirs_exist_ok=True): dst exists, every path under src has its counterpart
under dst, and everything that already existed keeps existing. -/
def copyFs (src dst : P) (fs : P → Option P) : P → Option P :=
  fun p =>
    if p = dst then some p
    else if dst.isPrefixOf p then
      match fs (src ++ p.drop dst.length) with
      | some _ => some p
      | none => fs p
    else fs p

/-- os.chdir(p): raises FileNotFoundError when the directory does not
exist, otherwise changes the working directory. -/
def chdirX (p : P) : M Unit := fun w =>
  if wexists w p then
    .ok ((), { w with cwd := p, trace := w.trace ++ [Event.chdir p] })
  else
    .error (.fileNotFoundError p, w)

/-- One `try: subprocess.run(cmd) except CalledProcessError as e: return e`
block: the run event is recorded, a raised CalledProcessError is returned,
any other raised exception propagates, and on normal completion the oracle
gives the new filesystem. -/
def runCaught (o : Oracle) (cmd : List String)
    (envArg : List (String × String)) : M (Option PyExn) := fun w =>
  match o.runCmd cmd envArg w.fs with
  | .ok newFs =>
      .ok (none, { w with fs := newFs, trace := w.trace ++ [Event.run cmd envArg] })
  | .raised e =>
      if e.isCalledProcessError then
        .ok (some e, { w with trace := w.trace ++ [Event.run cmd envArg] })
      else
        .error (e, { w with trace := w.trace ++ [Event.run cmd envArg] })

/-- OpenStageControl._test_url: urlparse errors and urlopen errors are
caught and returned as the second component; a response whose status passes
the (always-true) range check is returned as the first component. -/
def testUrlRes (o : Oracle) (u : String) : Option Nat × Option PyExn :=
  match o.urlBehavior u with
  | .parseErr e => (none, some e)
  | .openErr e => (none, some e)
  | .response s =>
      if 200 ≤ s || s < 400 then (some s, none) else (none, none)

/-- The OpenStageControl object: its constructor only computes the version
and the derived paths; home is the result of Path.home(). -/
structure OSC where
  version : String
  home : P

def OSC.url (c : OSC) : String :=
  "https://github.com/jean-emmanuel/open-stage-control/archive/refs/tags/v"
    ++ c.version ++ ".zip"

def OSC.downloads (c : OSC) : P := c.home ++ ["Downloads"]

def OSC.downloadDst (c : OSC) : P :=
  c.downloads ++ ["v" ++ c.version ++ ".zip"]

def OSC.unzippedDir (c : OSC) : P :=
  c.downloads ++ ["open-stage-control-" ++ c.version]

def OSC.distDir (c : OSC) : P := c.unzippedDir ++ ["dist"]

def OSC.packageDir (c : OSC) : P :=
  c.distDir ++ ["open-stage-control-darwin-arm64"]

def OSC.packagedApp (c : OSC) : P :=
  c.packageDir ++ ["open-stage-control.app"]

def OSC.appDir (c : OSC) : P :=
  ["Applications", "Open Stage Control", "v" ++ c.version]

def OSC.appDst (c : OSC) : P := c.appDir ++ ["Open Stage Control.app"]

/-- OpenStageControl._download: skip when the destination already exists;
otherwise test the URL (raising the returned error, or an Exception when
there is no response), chdir to Downloads, run curl catching
CalledProcessError, then verify the destination by strict resolution,
returning FileNotFoundError when it is missing or resolves elsewhere. -/
def download (o : Oracle) (c : OSC) : M (Option PyExn) := fun w =>
  if wexists w c.downloadDst then .ok (none, w)
  else
    match testUrlRes o c.url with
    | (_, some err) => .error (err, w)
    | (none, none) => .error (.genericExc ("No response from " ++ c.url), w)
    | (some _, none) =>
      match chdirX c.downloads w with
      | .error ew => .error ew
      | .ok (_, w1) =>
        match runCaught o ["curl", "-L", "-O", c.url] w1.env w1 with
        | .error ew => .error ew
        | .ok (some e, w2) => .ok (some e, w2)
        | .ok (none, w2) =>
          match w2.fs c.downloadDst with
          | none => .ok (some (.fileNotFoundError c.downloadDst), w2)
          | some r =>
            if c.downloadDst ≠ r then
              .ok (some (.fileNotFoundError c.downloadDst), w2)
            else .ok (none, w2)

/-- OpenStageControl._unzip: skip when the extracted directory already
exists; otherwise chdir to Downloads, run unzip catching
CalledProcessError, then verify the extracted directory by strict
resolution, returning FileNotFoundError when it is missing or resolves
elsewhere. -/
def unzip (o : Oracle) (c : OSC) : M (Option PyExn) := fun w =>
  if wexists w c.unzippedDir then .ok (none, w)
  else
    match chdirX c.downloads w with
    | .error ew => .error ew
    | .ok (_, w1) =>
      match runCaught o ["unzip", pathStr c.downloadDst] w1.env w1 with
      | .error ew => .error ew
      | .ok (some e, w2) => .ok (some e, w2)
      | .ok (none, w2) =>
        match w2.fs c.unzippedDir with
        | none => .ok (some (.fileNotFoundError c.unzippedDir), w2)
        | some r =>
          if c.unzippedDir ≠ r then
            .ok (some (.fileNotFoundError c.unzippedDir), w2)
          else .ok (none, w2)

/-- OpenStageControl._install_dependencies: chdir to the extracted tree and
run npm install, catching CalledProcessError. -/
def installDependencies (o : Oracle) (c : OSC) : M (Option PyExn) := fun w =>
  match chdirX c.unzippedDir w with
  | .error ew => .error ew
  | .ok (_, w1) => runCaught o ["npm", "install"] w1.env w1

/-- OpenStageControl._build: chdir to the extracted tree and run
npm run build, catching CalledProcessError. -/
def build (o : Oracle) (c : OSC) : M (Option PyExn) := fun w =>
  match chdirX c.unzippedDir w with
  | .error ew => .error ew
  | .ok (_, w1) => runCaught o ["npm", "run", "build"] w1.env w1

/-- Environment lookup on the association-list model of os.environ. -/
def lookupEnv (k : String) : List (String × String) → Option String
  | [] => none
  | (k2, v2) :: rest => if k2 = k then some v2 else lookupEnv k rest

/-- Environment update env[k] = v on the association-list model. -/
def setEnv (k v : String) : List (String × String) → List (String × String)
  | [] => [(k, v)]
  | (k2, v2) :: rest =>
      if k2 = k then (k, v) :: rest else (k2, v2) :: setEnv k v rest

/-- OpenStageControl._package: chdir to the extracted tree, copy the
environment, set PLATFORM=darwin and ARCH=arm64 on the copy, and run
npm run package with that environment, catching CalledProcessError. -/
def package (o : Oracle) (c : OSC) : M (Option PyExn) := fun w =>
  match chdirX c.unzippedDir w with
  | .error ew => .error ew
  | .ok (_, w1) =>
    runCaught o ["npm", "run", "package"]
      (setEnv "ARCH" "arm64" (setEnv "PLATFORM" "darwin" w1.env)) w1

/-- The stage functions a Failure can point at (the bound methods stored in
Failure.func). -/
inductive StageFn where
  | download
  | unzip
  | installDependencies
  | build
  | package
  deriving DecidableEq, Repr

/-- Failure: a stage function paired with the exception it returned. -/
structure Failure where
  func : StageFn
  error : PyExn
  deriving DecidableEq, Repr

/-- The singleton or empty failure list one stage contributes. -/
def optFailure (f : StageFn) : Option PyExn → List Failure
  | some e => [⟨f, e⟩]
  | none => []

/-- OpenStageControl.pre_install: run the five stages in order, appending a
Failure for each stage that returns an exception, and return the list when
it is nonempty, None otherwise.  An exception raised inside a stage
propagates. -/
def preInstall (o : Oracle) (c : OSC) : M (Option (List Failure)) := fun w =>
  match download o c w with
  | .error ew => .error ew
  | .ok (e1, w1) =>
  match unzip o c w1 with
  | .error ew => .error ew
  | .ok (e2, w2) =>
  match installDependencies o c w2 with
  | .error ew => .error ew
  | .ok (e3, w3) =>
  match build o c w3 with
  | .error ew => .error ew
  | .ok (e4, w4) =>
  match package o c w4 with
  | .error ew => .error ew
  | .ok (e5, w5) =>
    let failures :=
      optFailure .download e1 ++ optFailure .unzip e2 ++
      optFailure .installDependencies e3 ++ optFailure .build e4 ++
      optFailure .package e5
    if failures.length ≠ 0 then .ok (some failures, w5)
    else .ok (none, w5)

/-- OpenStageControl.install: chdir to the package directory, create the
destination directory when missing, and copytree the packaged app onto
app_dst with dirs_exist_ok.  A raised FileExistsError triggers the
fallback that rmtrees the destination directory (returning OSError) and
copytrees the bundle onto the directory itself (returning any exception);
any other copytree exception is returned. -/
def install (o : Oracle) (c : OSC) : M (Option PyExn) := fun w =>
  match chdirX c.packageDir w with
  | .error ew => .error ew
  | .ok (_, w1) =>
    let w2 :=
      if wexists w1 c.appDir then w1
      else { w1 with fs := mkdirpFs c.appDir w1.fs,
                     trace := w1.trace ++ [Event.mkdirp c.appDir] }
    match o.copytreeOutcome c.packagedApp c.appDst w2.fs with
    | none =>
        .ok (none, { w2 with fs := copyFs c.packagedApp c.appDst w2.fs,
                             trace := w2.trace ++
                               [Event.copytree c.packagedApp c.appDst] })
    | some e =>
      let wA := { w2 with trace := w2.trace ++
                    [Event.copytree c.packagedApp c.appDst] }
      if e.isFileExistsError then
        match o.rmtreeOutcome c.appDir wA.fs with
        | some e2 =>
          let wB := { wA with trace := wA.trace ++ [Event.rmtree c.appDir] }
          if e2.isOSError then .ok (some e2, wB) else .error (e2, wB)
        | none =>
          let wB := { wA with fs := rmtreeFs c.appDir wA.fs,
                              trace := wA.trace ++ [Event.rmtree c.appDir] }
          match o.copytreeOutcome c.packagedApp c.appDir wB.fs with
          | none =>
              .ok (none, { wB with
                fs := copyFs c.packagedApp c.appDir wB.fs,
                trace := wB.trace ++ [Event.copytree c.packagedApp c.appDir] })
          | some e3 =>
              .ok (some e3, { wB with trace := wB.trace ++
                    [Event.copytree c.packagedApp c.appDir] })
      else .ok (some e, wA)

/-- First half of OpenStageControl.post_install: when the extracted
directory exists, rmtree it, returning a raised OSError and propagating
anything else. -/
def rmtreeStage (o : Oracle) (c : OSC) : M (Option PyExn) := fun w =>
  if wexists w c.unzippedDir then
    match o.rmtreeOutcome c.unzippedDir w.fs with
    | some e =>
      let wT := { w with trace := w.trace ++ [Event.rmtree c.unzippedDir] }
      if e.isOSError then .ok (some e, wT) else .error (e, wT)
    | none =>
      .ok (none, { w with fs := rmtreeFs c.unzippedDir w.fs,
                          trace := w.trace ++ [Event.rmtree c.unzippedDir] })
  else .ok (none, w)

/-- Second half of OpenStageControl.post_install: when the downloaded
archive exists, unlink it, returning a raised FileNotFoundError and
propagating anything else. -/
def unlinkStage (o : Oracle) (c : OSC) : M (Option PyExn) := fun w =>
  if wexists w c.downloadDst then
    match o.unlinkOutcome c.downloadDst w.fs with
    | some e =>
      let wT := { w with trace := w.trace ++ [Event.unlink c.downloadDst] }
      if e.isFileNotFoundError then .ok (some e, wT) else .error (e, wT)
    | none =>
      .ok (none, { w with fs := unlinkFs c.downloadDst w.fs,
                          trace := w.trace ++ [Event.unlink c.downloadDst] })
  else .ok (none, w)

/-- OpenStageControl.post_install: rmtree the extracted directory (an
OSError is returned at once), then unlink the archive (a FileNotFoundError
is returned), returning None when nothing is left to do. -/
def postInstall (o : Oracle) (c : OSC) : M (Option PyExn) := fun w =>
  match rmtreeStage o c w with
  | .error ew => .error ew
  | .ok (some e, w1) => .ok (some e, w1)
  | .ok (none, w1) => unlinkStage o c w1

/-- The OpenStageControl object main constructs (version hard-coded to
1.29.7). -/
def mainOsc (home : P) : OSC := ⟨"1.29.7", home⟩

/-- main: run pre_install, raising an Exception when it returns failures;
then install, raising its returned exception at once; then post_install,
raising its returned exception at once. -/
def mainRun (o : Oracle) (home : P) : M Unit := fun w =>
  match preInstall o (mainOsc home) w with
  | .error ew => .error ew
  | .ok (some _, w1) =>
      .error (.genericExc "Failed Open Stage Control pre-install. See above.", w1)
  | .ok (none, w1) =>
    match install o (mainOsc home) w1 with
    | .error ew => .error ew
    | .ok (some e, w2) => .error (e, w2)
    | .ok (none, w2) =>
      match postInstall o (mainOsc home) w2 with
      | .error ew => .error ew
      | .ok (some e, w3) => .error (e, w3)
      | .ok (none, w3) => .ok ((), w3)

/-- Dep: name, install command, and the state computed by the constructor
via shutil.which. -/
structure Dep where
  name : String
  install_cmd : List String
  installed : Bool
  path : Option P
  errors : List PyExn
  deriving Repr

/-- Dep.install: when the dependency is not installed, run its install
command catching CalledProcessError; the Dep itself is never modified. -/
def Dep.install (o : Oracle) (d : Dep) : M (Option PyExn × Dep) := fun w =>
  if !d.installed then
    let wT := { w with trace := w.trace ++ [Event.run d.install_cmd w.env] }
    match o.runCmd d.install_cmd w.env w.fs with
    | .ok newFs => .ok ((none, d), { wT with fs := newFs })
    | .raised e =>
      if e.isCalledProcessError then .ok ((some e, d), wT)
      else .error (e, wT)
  else .ok ((none, d), w)

/-- World of the result of a run, whether the function returned or raised. -/
def resWorld {α : Type} : Except (PyExn × World) (α × World) → World
  | .ok (_, w) => w
  | .error (_, w) => w

/-- The failure list pre_install is expected to aggregate: one Failure per
failing stage, in stage order, pairing the stage function with the
exception that stage returned. -/
def expectedFailures (e1 e2 e3 e4 e5 : Option PyExn) : List Failure :=
  optFailure .download e1 ++ optFailure .unzip e2 ++
  optFailure .installDependencies e3 ++ optFailure .build e4 ++
  optFailure .package e5

/-- The value pre_install returns from given stage results: None when no
stage failed, otherwise the aggregated failure list. -/
def aggResult (e1 e2 e3 e4 e5 : Option PyExn) : Option (List Failure) :=
  if expectedFailures e1 e2 e3 e4 e5 = [] then none
  else some (expectedFailures e1 e2 e3 e4 e5)

/-- Tail parser for the digit part of a Python integer literal: digits with
single underscores allowed between digits. -/
def pyDigitsRest : List Char → Bool
  | [] => true
  | ['_'] => false
  | '_' :: c :: rest => c.isDigit && pyDigitsRest rest
  | c :: rest => c.isDigit && pyDigitsRest rest

/-- Digit-group test for the model of the Python int() builtin: at least one
digit, underscores only between digits. -/
def pyDigits : List Char → Bool
  | [] => false
  | c :: rest => c.isDigit && pyDigitsRest rest

/-- Numeric value of a list of decimal digits. -/
def natOfDigits (l : List Char) : Nat :=
  l.foldl (fun a c => a * 10 + (c.toNat - 48)) 0

/-- Leading-whitespace removal on a character list, as Python lstrip. -/
def pyTrimLeft : List Char → List Char
  | [] => []
  | c :: rest => if c.isWhitespace then pyTrimLeft rest else c :: rest

/-- Model of Python str.strip(): remove whitespace at both ends. -/
def pyStrip (l : List Char) : List Char :=
  (pyTrimLeft (pyTrimLeft l).reverse).reverse

/-- Model of Python str.split(sep) for a one-character separator: split at
every occurrence, keeping empty parts, with [""] for the empty string. -/
def pySplitOn (sep : Char) : List Char → List (List Char)
  | [] => [[]]
  | c :: rest =>
    if c = sep then [] :: pySplitOn sep rest
    else
      match pySplitOn sep rest with
      | [] => [[c]]
      | h :: t => (c :: h) :: t

/-- Model of the Python builtin int() on a string (as a character list):
surrounding whitespace is stripped, an optional sign is followed by decimal
digits with single underscores allowed between digits; `none` models a
raised ValueError. -/
def pyInt (s : List Char) : Option Int :=
  match pyStrip s with
  | '+' :: rest =>
      if pyDigits rest then
        some (Int.ofNat (natOfDigits (rest.filter (fun c => c != '_'))))
      else none
  | '-' :: rest =>
      if pyDigits rest then
        some (-(Int.ofNat (natOfDigits (rest.filter (fun c => c != '_')))))
      else none
  | l =>
      if pyDigits l then
        some (Int.ofNat (natOfDigits (l.filter (fun c => c != '_'))))
      else none

/-- The state of a SemVer object after a successful constructor run. -/
structure SemVer where
  major : Int
  minor : Int
  micro : Int
  deriving DecidableEq, Repr

/-- The normalisation SemVer.__init__ performs before splitting: remove a
single leading "v" when present (str.startswith plus str.removeprefix),
then strip surrounding whitespace. -/
def pyNormalize (ver : String) : List Char :=
  pyStrip (match ver.toList with
    | 'v' :: rest => rest
    | l => l)

/-- SemVer.__init__: raise on the empty string; remove a single leading "v";
strip and split on "."; raise unless there are exactly three parts, each
accepted by int(); the error value models the raised exception. -/
def SemVer.init (ver : String) : Except String SemVer :=
  if ver = "" then Except.error "Version cannot be empty!"
  else
    match pySplitOn '.' (pyNormalize ver) with
    | [a, b, c] =>
      match pyInt a with
      | none => Except.error "Version should only contain numbers"
      | some ma =>
        match pyInt b with
        | none => Except.error "Version should only contain numbers"
        | some mb =>
          match pyInt c with
          | none => Except.error "Version should only contain numbers"
          | some mc => Except.ok ⟨ma, mb, mc⟩
    | _ => Except.error "Version should only contain 3 parts"

/-- SemVer.__str__. -/
def SemVer.str (s : SemVer) : String :=
  "v" ++ toString s.major ++ "." ++ toString s.minor ++ "." ++ toString s.micro

/-- Concrete home directory for the closed test runs. -/
def home0 : P := ["Users", "u"]

/-- Concrete OpenStageControl object for the closed test runs. -/
def osc0 : OSC := ⟨"1.29.7", home0⟩

/-- Concrete filesystem in which the archive and the extracted tree already
exist. -/
def fs0 : P → Option P := fun p =>
  if p = osc0.downloadDst ∨ p = osc0.unzippedDir then some p else none

/-- Concrete start world over fs0. -/
def w0 : World := ⟨fs0, [], [], []⟩

/-- Concrete oracle on which every external collaborator succeeds and no
command changes the filesystem. -/
def oracle0 : Oracle :=
  ⟨fun _ => UrlOutcome.response 200,
   fun _ _ fs => RunOutcome.ok fs,
   fun _ _ => none,
   fun _ _ => none,
   fun _ _ _ => none⟩

/-- Concrete oracle on which opening the release URL fails. -/
def oracleCx : Oracle :=
  ⟨fun _ => UrlOutcome.openErr (PyExn.urlError "connection refused"),
   fun _ _ fs => RunOutcome.ok fs,
   fun _ _ => none,
   fun _ _ => none,
   fun _ _ _ => none⟩

/-- Concrete world with an empty filesystem. -/
def wEmpty : World := ⟨fun _ => none, [], [], []⟩

/-- Main characterisation of pre_install when each of the five stage calls
returns (rather than raises): the stages run in order on the threaded
worlds and the result is the aggregation of whatever they returned. -/
theorem preInstall_chain (o : Oracle) (c : OSC) (w w1 w2 w3 w4 w5 : World)
    (e1 e2 e3 e4 e5 : Option PyExn)
    (h1 : download o c w = .ok (e1, w1))
    (h2 : unzip o c w1 = .ok (e2, w2))
    (h3 : installDependencies o c w2 = .ok (e3, w3))
    (h4 : build o c w3 = .ok (e4, w4))
    (h5 : package o c w4 = .ok (e5, w5)) :
    preInstall o c w = .ok (aggResult e1 e2 e3 e4 e5, w5) := by
  unfold preInstall
  simp only [h1, h2, h3, h4, h5]
  cases e1 <;> cases e2 <;> cases e3 <;> cases e4 <;> cases e5 <;>
    simp [aggResult, expectedFailures, optFailure]

/-- C2: when each of the five stage calls returns, pre_install invokes
download, unzip, install-dependencies, build and package in that order on
the threaded worlds, returns None exactly when every stage returned None,
and otherwise returns the non-empty list holding exactly one Failure per
failing stage, in stage order, pairing the stage function with the
exception that stage returned. -/
theorem c2_preInstall_aggregation (o : Oracle) (c : OSC)
    (w w1 w2 w3 w4 w5 : World) (e1 e2 e3 e4 e5 : Option PyExn)
    (h1 : download o c w = .ok (e1, w1))
    (h2 : unzip o c w1 = .ok (e2, w2))
    (h3 : installDependencies o c w2 = .ok (e3, w3))
    (h4 : build o c w3 = .ok (e4, w4))
    (h5 : package o c w4 = .ok (e5, w5)) :
    preInstall o c w = .ok (aggResult e1 e2 e3 e4 e5, w5)
    ∧ (aggResult e1 e2 e3 e4 e5 = none ↔
        e1 = none ∧ e2 = none ∧ e3 = none ∧ e4 = none ∧ e5 = none)
    ∧ (∀ l, aggResult e1 e2 e3 e4 e5 = some l →
        l = expectedFailures e1 e2 e3 e4 e5 ∧ l ≠ []) := by
  refine ⟨preInstall_chain o c w w1 w2 w3 w4 w5 e1 e2 e3 e4 e5 h1 h2 h3 h4 h5,
    ?_, ?_⟩
  · cases e1 <;> cases e2 <;> cases e3 <;> cases e4 <;> cases e5 <;>
      simp [aggResult, expectedFailures, optFailure]
  · intro l hl
    unfold aggResult at hl
    split at hl
    · simp at hl
    · rename_i hne
      have hinj := Option.some.inj hl
      exact ⟨hinj.symm, fun hl0 => hne (hinj.trans hl0)⟩

/-- Trace of the concrete successful pre_install run from w0. -/
def trC2 : List Event :=
  [Event.chdir osc0.unzippedDir, Event.run ["npm", "install"] [],
   Event.chdir osc0.unzippedDir, Event.run ["npm", "run", "build"] [],
   Event.chdir osc0.unzippedDir,
   Event.run ["npm", "run", "package"] [("PLATFORM", "darwin"), ("ARCH", "arm64")]]

/-- World after the install-dependencies stage of the concrete run. -/
def wC2a : World := ⟨fs0, osc0.unzippedDir, [], trC2.take 2⟩

/-- World after the build stage of the concrete run. -/
def wC2b : World := ⟨fs0, osc0.unzippedDir, [], trC2.take 4⟩

/-- World after the package stage of the concrete run. -/
def wC2end : World := ⟨fs0, osc0.unzippedDir, [], trC2⟩

/-- Witness for C2: the concrete run in which every stage returns None. -/
theorem c2_witness :
    preInstall oracle0 osc0 w0 =
      Except.ok (aggResult none none none none none, wC2end) :=
  (c2_preInstall_aggregation oracle0 osc0 w0 w0 w0 wC2a wC2b wC2end
    none none none none none rfl rfl rfl rfl rfl).1

/-- The stage errors reported through a pre_install return value. -/
def failuresErrors : Option (List Failure) → List PyExn
  | none => []
  | some l => l.map Failure.error

/-- C1 counterexample: a run of pre_install in which the download stage
raises: with the archive absent and the URL test failing, _download raises
the URLError instead of returning it, and the exception propagates out of
pre_install instead of being aggregated into a returned list. -/
theorem c1_counterexample :
    preInstall oracleCx osc0 wEmpty =
      Except.error (PyExn.urlError "connection refused", wEmpty) := rfl

/-- C1 (amended): in every run in which each of the five stages returns
rather than raises, pre_install raises no exception and the errors the
stages returned are reported exactly through the returned list. -/
theorem c1_preInstall_no_raise_when_stages_return (o : Oracle) (c : OSC)
    (w w1 w2 w3 w4 w5 : World) (e1 e2 e3 e4 e5 : Option PyExn)
    (h1 : download o c w = .ok (e1, w1))
    (h2 : unzip o c w1 = .ok (e2, w2))
    (h3 : installDependencies o c w2 = .ok (e3, w3))
    (h4 : build o c w3 = .ok (e4, w4))
    (h5 : package o c w4 = .ok (e5, w5)) :
    ∃ r, preInstall o c w = .ok (r, w5) ∧
      failuresErrors r = List.filterMap (fun x => x) [e1, e2, e3, e4, e5] := by
  refine ⟨aggResult e1 e2 e3 e4 e5,
    preInstall_chain o c w w1 w2 w3 w4 w5 e1 e2 e3 e4 e5 h1 h2 h3 h4 h5, ?_⟩
  cases e1 <;> cases e2 <;> cases e3 <;> cases e4 <;> cases e5 <;>
    simp [aggResult, expectedFailures, optFailure, failuresErrors]

/-- Concrete oracle on which npm install raises CalledProcessError and
every other command succeeds. -/
def oracle2 : Oracle :=
  { oracle0 with
    runCmd := fun cmd _ fs =>
      if cmd = ["npm", "install"] then
        RunOutcome.raised (PyExn.calledProcessError cmd)
      else RunOutcome.ok fs }

/-- Witness for C1 (amended): a concrete run in which the dependency stage
returns a CalledProcessError and pre_install reports it only in the list. -/
theorem c1_witness :
    ∃ r, preInstall oracle2 osc0 w0 = Except.ok (r, wC2end) ∧
      failuresErrors r = List.filterMap (fun x => x)
        [none, none, some (PyExn.calledProcessError ["npm", "install"]), none,
         (none : Option PyExn)] :=
  c1_preInstall_no_raise_when_stages_return oracle2 osc0 w0 w0 w0 wC2a wC2b
    wC2end none none (some (PyExn.calledProcessError ["npm", "install"]))
    none none rfl rfl rfl rfl rfl

/-- C3: when the download destination already exists _download returns None
at once, and when the extracted directory already exists _unzip returns
None at once; in both cases the world — filesystem, working directory,
environment and effect trace — is completely unchanged, so no external
command is invoked and no file is created, modified or removed. -/
theorem c3_skip_when_output_exists (o : Oracle) (c : OSC) (w : World) :
    (wexists w c.downloadDst = true → download o c w = .ok (none, w))
    ∧ (wexists w c.unzippedDir = true → unzip o c w = .ok (none, w)) := by
  constructor
  · intro h
    simp [download, h]
  · intro h
    simp [unzip, h]

/-- Witness for C3: the concrete world in which both artifacts exist. -/
theorem c3_witness :
    download oracle0 osc0 w0 = Except.ok (none, w0)
    ∧ unzip oracle0 osc0 w0 = Except.ok (none, w0) :=
  ⟨(c3_skip_when_output_exists oracle0 osc0 w0).1 rfl,
   (c3_skip_when_output_exists oracle0 osc0 w0).2 rfl⟩

/-- C9: whenever _download returns None the archive exists at the download
destination, and whenever _unzip returns None the extracted directory
exists at its expected path (both steps verify their output by strict
resolution and return FileNotFoundError otherwise). -/
theorem c9_success_implies_output_exists (o : Oracle) (c : OSC)
    (w w' : World) :
    (download o c w = .ok (none, w') → wexists w' c.downloadDst = true)
    ∧ (unzip o c w = .ok (none, w') → wexists w' c.unzippedDir = true) := by
  constructor
  · intro h
    unfold download at h
    split at h
    · rename_i hex
      simp only [Except.ok.injEq, Prod.mk.injEq] at h
      rw [← h.2]
      exact hex
    · split at h
      · simp at h
      · simp at h
      · split at h
        · simp at h
        · split at h
          · simp at h
          · simp at h
          · split at h
            · simp at h
            · rename_i w2 r heq
              split at h
              · simp at h
              · simp only [Except.ok.injEq, Prod.mk.injEq] at h
                rw [← h.2]
                simp [wexists, heq]
  · intro h
    unfold unzip at h
    split at h
    · rename_i hex
      simp only [Except.ok.injEq, Prod.mk.injEq] at h
      rw [← h.2]
      exact hex
    · split at h
      · simp at h
      · split at h
        · simp at h
        · simp at h
        · split at h
          · simp at h
          · rename_i w2 r heq
            split at h
            · simp at h
            · simp only [Except.ok.injEq, Prod.mk.injEq] at h
              rw [← h.2]
              simp [wexists, heq]

/-- Witness for C9: the concrete skip run, whose output exists. -/
theorem c9_witness :
    wexists w0 osc0.downloadDst = true ∧ wexists w0 osc0.unzippedDir = true :=
  ⟨(c9_success_implies_output_exists oracle0 osc0 w0 w0).1 rfl,
   (c9_success_implies_output_exists oracle0 osc0 w0 w0).2 rfl⟩

/-- A list is a Boolean prefix of itself followed by anything. -/
theorem isPrefixOf_self_append (l s : P) : l.isPrefixOf (l ++ s) = true := by
  induction l with
  | nil => simp [List.isPrefixOf]
  | cons a t ih => simp [List.isPrefixOf, ih]

/-- A list is a Boolean prefix of itself. -/
theorem isPrefixOf_self (l : P) : l.isPrefixOf l = true := by
  have h := isPrefixOf_self_append l []
  rwa [List.append_nil] at h

/-- A strictly longer extension is not a Boolean prefix. -/
theorem isPrefixOf_append_singleton (l : P) (x : String) :
    (l ++ [x]).isPrefixOf l = false := by
  induction l with
  | nil => simp [List.isPrefixOf]
  | cons a t ih => simp [List.isPrefixOf, ih]

/-- A list never equals itself extended by one component. -/
theorem self_ne_append_singleton (l : P) (x : String) : l ≠ l ++ [x] := by
  intro h
  have := congrArg List.length h
  simp at this

/-- The extracted directory and the archive are sibling entries with
different names, so they are distinct paths. -/
theorem unzippedDir_ne_downloadDst (c : OSC) :
    c.unzippedDir ≠ c.downloadDst := by
  unfold OSC.unzippedDir OSC.downloadDst
  intro h
  have h2 : ["open-stage-control-" ++ c.version] =
      ["v" ++ c.version ++ ".zip"] := List.append_cancel_left h
  have h3 : "open-stage-control-" ++ c.version =
      "v" ++ c.version ++ ".zip" := by
    simpa using h2
  have h4 := congrArg String.length h3
  simp only [String.length_append] at h4
  have l1 : "open-stage-control-".length = 19 := rfl
  have l2 : "v".length = 1 := rfl
  have l3 : ".zip".length = 4 := rfl
  rw [l1, l2, l3] at h4
  omega

/-- The extracted directory is not a Boolean prefix of the archive path. -/
theorem unzippedDir_not_prefixOf_downloadDst (c : OSC) :
    c.unzippedDir.isPrefixOf c.downloadDst = false := by
  by_contra hb
  have hb2 : c.unzippedDir.isPrefixOf c.downloadDst = true := by
    revert hb
    cases c.unzippedDir.isPrefixOf c.downloadDst <;> simp
  have hpre : c.unzippedDir <+: c.downloadDst :=
    (List.isPrefixOf_iff_prefix).mp hb2
  obtain ⟨t, ht⟩ := hpre
  have hlen : c.unzippedDir.length = c.downloadDst.length := by
    unfold OSC.unzippedDir OSC.downloadDst
    simp
  have hlen2 := congrArg List.length ht
  rw [List.length_append, hlen] at hlen2
  have htnil : t = [] := by
    have : t.length = 0 := by omega
    exact List.eq_nil_of_length_eq_zero this
  rw [htnil, List.append_nil] at ht
  exact unzippedDir_ne_downloadDst c ht

/-- post_install skips rmtree when the extracted tree is absent. -/
theorem rmtreeStage_skip (o : Oracle) (c : OSC) (w : World)
    (hx : wexists w c.unzippedDir = false) :
    rmtreeStage o c w = .ok (none, w) := by
  simp [rmtreeStage, hx]

/-- post_install skips unlink when the archive is absent. -/
theorem unlinkStage_skip (o : Oracle) (c : OSC) (w : World)
    (hx : wexists w c.downloadDst = false) :
    unlinkStage o c w = .ok (none, w) := by
  simp [unlinkStage, hx]

/-- When the rmtree half finishes with None, the extracted tree is gone,
nothing outside it changed, no unlink was attempted there, and nothing at
all happened when the tree was already absent. -/
theorem rmtreeStage_ok_none (o : Oracle) (c : OSC) (w w1 : World)
    (h : rmtreeStage o c w = .ok (none, w1)) :
    wexists w1 c.unzippedDir = false
    ∧ (∀ p, c.unzippedDir.isPrefixOf p = false → wexists w1 p = wexists w p)
    ∧ (∀ p, Event.unlink p ∈ w1.trace → Event.unlink p ∈ w.trace)
    ∧ (wexists w c.unzippedDir = false → w1 = w) := by
  unfold rmtreeStage at h
  split at h
  · rename_i hex
    split at h
    · split at h
      · simp at h
      · simp at h
    · simp only [Except.ok.injEq, Prod.mk.injEq] at h
      obtain ⟨-, hw⟩ := h
      subst hw
      refine ⟨?_, ?_, ?_, ?_⟩
      · simp [wexists, rmtreeFs, isPrefixOf_self]
      · intro p hp
        simp [wexists, rmtreeFs, hp]
      · intro p hp
        simpa using hp
      · intro hq
        rw [hex] at hq
        cases hq
  · rename_i hex
    simp only [Except.ok.injEq, Prod.mk.injEq] at h
    obtain ⟨-, hw⟩ := h
    subst hw
    have hex2 : wexists w c.unzippedDir = false := by
      revert hex
      cases wexists w c.unzippedDir <;> simp
    exact ⟨hex2, fun p _ => rfl, fun p hp => hp, fun _ => rfl⟩

/-- When the unlink half finishes with None, the archive is gone, nothing
else changed, no rmtree was attempted there, and nothing at all happened
when the archive was already absent. -/
theorem unlinkStage_ok_none (o : Oracle) (c : OSC) (w w1 : World)
    (h : unlinkStage o c w = .ok (none, w1)) :
    wexists w1 c.downloadDst = false
    ∧ (∀ p, p ≠ c.downloadDst → wexists w1 p = wexists w p)
    ∧ (∀ p, Event.rmtree p ∈ w1.trace → Event.rmtree p ∈ w.trace)
    ∧ (wexists w c.downloadDst = false → w1 = w) := by
  unfold unlinkStage at h
  split at h
  · rename_i hex
    split at h
    · split at h
      · simp at h
      · simp at h
    · simp only [Except.ok.injEq, Prod.mk.injEq] at h
      obtain ⟨-, hw⟩ := h
      subst hw
      refine ⟨?_, ?_, ?_, ?_⟩
      · simp [wexists, unlinkFs]
      · intro p hp
        simp [wexists, unlinkFs, hp]
      · intro p hp
        simpa using hp
      · intro hq
        rw [hex] at hq
        cases hq
  · rename_i hex
    simp only [Except.ok.injEq, Prod.mk.injEq] at h
    obtain ⟨-, hw⟩ := h
    subst hw
    have hex2 : wexists w c.downloadDst = false := by
      revert hex
      cases wexists w c.downloadDst <;> simp
    exact ⟨hex2, fun p _ => rfl, fun p hp => hp, fun _ => rfl⟩

/-- Whatever the rmtree half does, paths outside the extracted tree are
untouched. -/
theorem rmtreeStage_frame (o : Oracle) (c : OSC) (w : World) (p : P)
    (hp : c.unzippedDir.isPrefixOf p = false) :
    wexists (resWorld (rmtreeStage o c w)) p = wexists w p := by
  unfold rmtreeStage
  by_cases hx : wexists w c.unzippedDir = true
  · simp only [hx, if_true]
    cases heq : o.rmtreeOutcome c.unzippedDir w.fs with
    | some e =>
      by_cases hos : e.isOSError = true
      · simp [hos, resWorld, wexists]
      · simp [hos, resWorld, wexists]
    | none => simp [resWorld, wexists, rmtreeFs, hp]
  · simp [hx, resWorld]

/-- Whatever the unlink half does, paths other than the archive are
untouched. -/
theorem unlinkStage_frame (o : Oracle) (c : OSC) (w : World) (p : P)
    (hp : p ≠ c.downloadDst) :
    wexists (resWorld (unlinkStage o c w)) p = wexists w p := by
  unfold unlinkStage
  by_cases hx : wexists w c.downloadDst = true
  · simp only [hx, if_true]
    cases heq : o.unlinkOutcome c.downloadDst w.fs with
    | some e =>
      by_cases hfe : e.isFileNotFoundError = true
      · simp [hfe, resWorld, wexists]
      · simp [hfe, resWorld, wexists]
    | none => simp [resWorld, wexists, unlinkFs, hp]
  · simp [hx, resWorld]

/-- Whatever the unlink half does, it never records an rmtree attempt. -/
theorem unlinkStage_no_rmtree (o : Oracle) (c : OSC) (w : World) (p : P)
    (hp : Event.rmtree p ∈ (resWorld (unlinkStage o c w)).trace) :
    Event.rmtree p ∈ w.trace := by
  unfold unlinkStage at hp
  by_cases hx : wexists w c.downloadDst = true
  · simp only [hx, if_true] at hp
    cases heq : o.unlinkOutcome c.downloadDst w.fs with
    | some e =>
      rw [heq] at hp
      by_cases hfe : e.isFileNotFoundError = true
      · simp [hfe, resWorld] at hp
        exact hp
      · simp [hfe, resWorld] at hp
        exact hp
    | none =>
      rw [heq] at hp
      simp [resWorld] at hp
      exact hp
  · simp [hx, resWorld] at hp
    exact hp

/-- Whatever the rmtree half does, it never records an unlink attempt. -/
theorem rmtreeStage_no_unlink (o : Oracle) (c : OSC) (w : World) (p : P)
    (hp : Event.unlink p ∈ (resWorld (rmtreeStage o c w)).trace) :
    Event.unlink p ∈ w.trace := by
  unfold rmtreeStage at hp
  by_cases hx : wexists w c.unzippedDir = true
  · simp only [hx, if_true] at hp
    cases heq : o.rmtreeOutcome c.unzippedDir w.fs with
    | some e =>
      rw [heq] at hp
      by_cases hos : e.isOSError = true
      · simp [hos, resWorld] at hp
        exact hp
      · simp [hos, resWorld] at hp
        exact hp
    | none =>
      rw [heq] at hp
      simp [resWorld] at hp
      exact hp
  · simp [hx, resWorld] at hp
    exact hp

/-- C6: whenever post_install returns None, neither the archive nor the
extracted tree exists afterwards; when both are already absent it deletes
nothing and still returns None with the world unchanged; no rmtree is
attempted when the tree is absent and no unlink when the archive is
absent; and existence of every path outside the two staging artifacts
(the archive, and the extracted tree with its contents) is preserved. -/
theorem c6_postInstall_cleanup (o : Oracle) (c : OSC) (w : World) :
    (∀ w2, postInstall o c w = .ok (none, w2) →
        wexists w2 c.downloadDst = false ∧ wexists w2 c.unzippedDir = false)
    ∧ (wexists w c.unzippedDir = false → wexists w c.downloadDst = false →
        postInstall o c w = .ok (none, w))
    ∧ (wexists w c.unzippedDir = false →
        ∀ p, Event.rmtree p ∈ (resWorld (postInstall o c w)).trace →
          Event.rmtree p ∈ w.trace)
    ∧ (wexists w c.downloadDst = false →
        ∀ p, Event.unlink p ∈ (resWorld (postInstall o c w)).trace →
          Event.unlink p ∈ w.trace)
    ∧ (∀ p, c.unzippedDir.isPrefixOf p = false → p ≠ c.downloadDst →
        wexists (resWorld (postInstall o c w)) p = wexists w p) := by
  refine ⟨?_, ?_, ?_, ?_, ?_⟩
  · intro w2 h
    unfold postInstall at h
    split at h
    · simp at h
    · simp at h
    · rename_i w1 hr
      obtain ⟨hu1, hfr1, -, -⟩ := rmtreeStage_ok_none o c w w1 hr
      obtain ⟨hd2, hfr2, -, -⟩ := unlinkStage_ok_none o c w1 w2 h
      refine ⟨hd2, ?_⟩
      rw [hfr2 c.unzippedDir (unzippedDir_ne_downloadDst c)]
      exact hu1
  · intro hu hd
    unfold postInstall
    rw [rmtreeStage_skip o c w hu]
    exact unlinkStage_skip o c w hd
  · intro hu p hp
    unfold postInstall at hp
    simp only [rmtreeStage_skip o c w hu] at hp
    exact unlinkStage_no_rmtree o c w p hp
  · intro hd p hp
    unfold postInstall at hp
    cases hr : rmtreeStage o c w with
    | error ew =>
      simp only [hr] at hp
      exact rmtreeStage_no_unlink o c w p (by rw [hr]; exact hp)
    | ok aw =>
      obtain ⟨r, wr⟩ := aw
      cases r with
      | some e =>
        simp only [hr] at hp
        exact rmtreeStage_no_unlink o c w p (by rw [hr]; exact hp)
      | none =>
        simp only [hr] at hp
        obtain ⟨-, hfr1, htr1, -⟩ := rmtreeStage_ok_none o c w wr hr
        have hdr : wexists wr c.downloadDst = false := by
          rw [hfr1 c.downloadDst (unzippedDir_not_prefixOf_downloadDst c)]
          exact hd
        rw [unlinkStage_skip o c wr hdr] at hp
        simp only [resWorld] at hp
        exact htr1 p hp
  · intro p hnp hnd
    unfold postInstall
    cases hr : rmtreeStage o c w with
    | error ew =>
      have hfr := rmtreeStage_frame o c w p hnp
      rw [hr] at hfr
      exact hfr
    | ok aw =>
      obtain ⟨r, wr⟩ := aw
      cases r with
      | some e =>
        have hfr := rmtreeStage_frame o c w p hnp
        rw [hr] at hfr
        exact hfr
      | none =>
        have hfr := rmtreeStage_frame o c w p hnp
        rw [hr] at hfr
        simp only [resWorld] at hfr
        have hfr2 := unlinkStage_frame o c wr p hnd
        rw [hfr2, hfr]

/-- mkdir only adds entries, never removes them. -/
theorem mkdirpFs_mono (d : P) (fs : P → Option P) (p : P)
    (h : (fs p).isSome = true) : ((mkdirpFs d fs) p).isSome = true := by
  unfold mkdirpFs
  split
  · simp
  · exact h

/-- copytree carries every path under the source over to the destination. -/
theorem copyFs_subtree (src dst : P) (fs : P → Option P) (s : P)
    (h : (fs (src ++ s)).isSome = true) :
    ((copyFs src dst fs) (dst ++ s)).isSome = true := by
  unfold copyFs
  by_cases hds : dst ++ s = dst
  · simp [hds]
  · rw [if_neg hds, isPrefixOf_self_append, if_pos rfl, List.drop_left]
    cases hfp : fs (src ++ s) with
    | some v => simp
    | none => rw [hfp] at h; cases h

/-- copytree leaves paths outside the destination untouched. -/
theorem copyFs_other (src dst : P) (fs : P → Option P) (p : P)
    (hne : p ≠ dst) (hpre : dst.isPrefixOf p = false) :
    (copyFs src dst fs) p = fs p := by
  unfold copyFs
  rw [if_neg hne, hpre]
  simp

/-- C5: when the working-directory change succeeds and the copy does not
raise, install returns None and afterwards the destination directory
exists, the copied bundle exists at its destination, and every path under
the packaged bundle has its counterpart under the destination — whether or
not an install was already present there. -/
theorem c5_install_copies_bundle (o : Oracle) (c : OSC) (w : World)
    (hpd : wexists w c.packageDir = true)
    (hct : ∀ fs, o.copytreeOutcome c.packagedApp c.appDst fs = none) :
    ∃ w2, install o c w = .ok (none, w2)
      ∧ wexists w2 c.appDir = true
      ∧ wexists w2 c.appDst = true
      ∧ (∀ s : P, wexists w (c.packagedApp ++ s) = true →
          wexists w2 (c.appDst ++ s) = true) := by
  have hadne : c.appDir ≠ c.appDst := self_ne_append_singleton c.appDir _
  have hadpre : c.appDst.isPrefixOf c.appDir = false :=
    isPrefixOf_append_singleton c.appDir _
  unfold install
  simp only [chdirX, hpd, if_true]
  simp only [hct]
  by_cases had : wexists w c.appDir = true
  · simp only [wexists] at had ⊢
    simp only [had, if_true]
    refine ⟨_, rfl, ?_, ?_, ?_⟩
    · simp only [wexists]
      rw [copyFs_other c.packagedApp c.appDst w.fs c.appDir hadne hadpre]
      exact had
    · simp [wexists, copyFs]
    · intro s hs
      simp only [wexists] at hs ⊢
      exact copyFs_subtree c.packagedApp c.appDst w.fs s hs
  · simp only [wexists] at had ⊢
    rw [Bool.not_eq_true] at had
    simp only [had, Bool.false_eq_true, if_false]
    refine ⟨_, rfl, ?_, ?_, ?_⟩
    · simp only [wexists]
      rw [copyFs_other c.packagedApp c.appDst _ c.appDir hadne hadpre]
      simp [mkdirpFs, isPrefixOf_self]
    · simp [wexists, copyFs]
    · intro s hs
      simp only [wexists] at hs ⊢
      exact copyFs_subtree c.packagedApp c.appDst _ s
        (mkdirpFs_mono c.appDir w.fs _ hs)

/-- C4: main raises an install failure at once — post_install is then not
run, since main stops in exactly the world install produced — and raises a
post_install failure at once. -/
theorem c4_main_raises_install_cleanup_failures (o : Oracle) (home : P)
    (w w1 w2 w3 : World) (e e2 : PyExn) :
    (preInstall o (mainOsc home) w = .ok (none, w1) →
      install o (mainOsc home) w1 = .ok (some e, w2) →
      mainRun o home w = .error (e, w2))
    ∧ (preInstall o (mainOsc home) w = .ok (none, w1) →
      install o (mainOsc home) w1 = .ok (none, w2) →
      postInstall o (mainOsc home) w2 = .ok (some e2, w3) →
      mainRun o home w = .error (e2, w3)) := by
  constructor
  · intro h1 h2
    unfold mainRun
    simp only [h1, h2]
  · intro h1 h2 h3
    unfold mainRun
    simp only [h1, h2, h3]

/-- Concrete oracle on which the install copy raises a non-FileExistsError
OSError and everything else succeeds. -/
def oracle1 : Oracle :=
  { oracle0 with copytreeOutcome := fun _ _ _ => some (PyExn.osError "disk full") }

/-- Concrete filesystem for the C4 run: archive, extracted tree, package
directory and destination directory all present. -/
def fs4 : P → Option P := fun p =>
  if p = osc0.downloadDst ∨ p = osc0.unzippedDir ∨ p = osc0.packageDir ∨
     p = osc0.appDir then some p else none

/-- Concrete start world for the C4 run. -/
def wC4 : World := ⟨fs4, [], [], []⟩

/-- World after the successful pre_install of the C4 run. -/
def w5C4 : World := ⟨fs4, osc0.unzippedDir, [], trC2⟩

/-- World in which the C4 run's install returns its error. -/
def wC4end : World := ⟨fs4, osc0.packageDir, [],
  trC2 ++ [Event.chdir osc0.packageDir,
           Event.copytree osc0.packagedApp osc0.appDst]⟩

/-- Witness for C4: the concrete run in which the copy fails and main
raises the returned OSError in exactly the world install produced. -/
theorem c4_witness :
    mainRun oracle1 home0 wC4 = Except.error (PyExn.osError "disk full", wC4end) :=
  (c4_main_raises_install_cleanup_failures oracle1 home0 wC4 w5C4 wC4end wC4end
    (PyExn.osError "disk full") (PyExn.osError "disk full")).1 rfl rfl

/-- Concrete filesystem for the C5 run: package directory, packaged bundle
and one file inside the bundle. -/
def fs5 : P → Option P := fun p =>
  if p = osc0.packageDir ∨ p = osc0.packagedApp ∨
     p = osc0.packagedApp ++ ["Contents"] then some p else none

/-- Concrete start world for the C5 run. -/
def wC5 : World := ⟨fs5, [], [], []⟩

/-- Witness for C5: the concrete run in which the copy succeeds. -/
theorem c5_witness :
    ∃ w2, install oracle0 osc0 wC5 = Except.ok (none, w2)
      ∧ wexists w2 osc0.appDir = true
      ∧ wexists w2 osc0.appDst = true
      ∧ (∀ s : P, wexists wC5 (osc0.packagedApp ++ s) = true →
          wexists w2 (osc0.appDst ++ s) = true) :=
  c5_install_copies_bundle oracle0 osc0 wC5 rfl (fun _ => rfl)

/-- End world of the concrete C6 cleanup run from w0. -/
def wC6end : World :=
  ⟨unlinkFs osc0.downloadDst (rmtreeFs osc0.unzippedDir fs0), [], [],
   [Event.rmtree osc0.unzippedDir, Event.unlink osc0.downloadDst]⟩

/-- Witness for C6: the concrete cleanup run in which both artifacts exist
and are removed. -/
theorem c6_witness :
    wexists wC6end osc0.downloadDst = false
    ∧ wexists wC6end osc0.unzippedDir = false :=
  (c6_postInstall_cleanup oracle0 osc0 w0).1 wC6end rfl

/-- Environment lookup after setting the same key finds the new value. -/
theorem lookupEnv_setEnv_self (k v : String) (l : List (String × String)) :
    lookupEnv k (setEnv k v l) = some v := by
  induction l with
  | nil => simp [setEnv, lookupEnv]
  | cons q rest ih =>
    obtain ⟨k2, v2⟩ := q
    by_cases hk : k2 = k
    · simp [setEnv, lookupEnv, hk]
    · simp [setEnv, lookupEnv, hk, ih]

/-- Environment lookup after setting a different key is unchanged. -/
theorem lookupEnv_setEnv_other (k k2 v : String) (l : List (String × String))
    (hne : k ≠ k2) : lookupEnv k2 (setEnv k v l) = lookupEnv k2 l := by
  induction l with
  | nil => simp [setEnv, lookupEnv, hne]
  | cons q rest ih =>
    obtain ⟨ka, va⟩ := q
    by_cases hk : ka = k
    · subst hk
      simp [setEnv, lookupEnv, hne]
    · simp [setEnv, lookupEnv, hk, ih]

/-- The environment the packaging stage passes to npm run package: a copy
of the process environment with PLATFORM set to darwin and then ARCH set
to arm64. -/
def pkgEnv (env : List (String × String)) : List (String × String) :=
  setEnv "ARCH" "arm64" (setEnv "PLATFORM" "darwin" env)

/-- Whatever npm run package does, the packaging stage leaves the process
environment unchanged and records exactly the directory change and the one
command invocation with the modified environment copy. -/
theorem package_resWorld (o : Oracle) (c : OSC) (w : World)
    (h : wexists w c.unzippedDir = true) :
    ∃ fs2, resWorld (package o c w) =
      World.mk fs2 c.unzippedDir w.env
        (w.trace ++ [Event.chdir c.unzippedDir,
          Event.run ["npm", "run", "package"] (pkgEnv w.env)]) := by
  unfold package chdirX runCaught
  simp only [h, if_true]
  cases hoc : o.runCmd ["npm", "run", "package"]
      (setEnv "ARCH" "arm64" (setEnv "PLATFORM" "darwin" w.env)) w.fs with
  | ok newFs =>
    refine ⟨newFs, ?_⟩
    simp [resWorld, pkgEnv, List.append_assoc]
  | raised e =>
    by_cases hcpe : e.isCalledProcessError = true
    · refine ⟨w.fs, ?_⟩
      simp [hcpe, resWorld, pkgEnv, List.append_assoc]
    · refine ⟨w.fs, ?_⟩
      simp [hcpe, resWorld, pkgEnv, List.append_assoc]

/-- C7: when the directory change succeeds, the packaging stage invokes
npm run package with an environment copy in which PLATFORM is darwin and
ARCH is arm64, every other variable reads as in the process environment,
and the process environment itself is unchanged afterwards. -/
theorem c7_package_environment (o : Oracle) (c : OSC) (w : World)
    (h : wexists w c.unzippedDir = true) :
    (resWorld (package o c w)).env = w.env
    ∧ (resWorld (package o c w)).trace = w.trace ++
        [Event.chdir c.unzippedDir,
         Event.run ["npm", "run", "package"] (pkgEnv w.env)]
    ∧ lookupEnv "PLATFORM" (pkgEnv w.env) = some "darwin"
    ∧ lookupEnv "ARCH" (pkgEnv w.env) = some "arm64"
    ∧ (∀ k, k ≠ "PLATFORM" → k ≠ "ARCH" →
        lookupEnv k (pkgEnv w.env) = lookupEnv k w.env) := by
  obtain ⟨fs2, hw⟩ := package_resWorld o c w h
  rw [hw]
  refine ⟨rfl, rfl, ?_, ?_, ?_⟩
  · unfold pkgEnv
    rw [lookupEnv_setEnv_other "ARCH" "PLATFORM" "arm64" _ (by decide)]
    exact lookupEnv_setEnv_self "PLATFORM" "darwin" w.env
  · exact lookupEnv_setEnv_self "ARCH" "arm64" _
  · intro k hkp hka
    unfold pkgEnv
    rw [lookupEnv_setEnv_other "ARCH" k "arm64" _ (fun hx => hka hx.symm),
      lookupEnv_setEnv_other "PLATFORM" k "darwin" _ (fun hx => hkp hx.symm)]

/-- Concrete world for the C7 run, with a nonempty process environment. -/
def wC7 : World := ⟨fs0, [], [("PATH", "/usr/bin"), ("HOME", "/Users/u")], []⟩

/-- Witness for C7: the packaging run from wC7. -/
theorem c7_witness :
    (resWorld (package oracle0 osc0 wC7)).env = wC7.env
    ∧ (resWorld (package oracle0 osc0 wC7)).trace = wC7.trace ++
        [Event.chdir osc0.unzippedDir,
         Event.run ["npm", "run", "package"] (pkgEnv wC7.env)]
    ∧ lookupEnv "PLATFORM" (pkgEnv wC7.env) = some "darwin"
    ∧ lookupEnv "ARCH" (pkgEnv wC7.env) = some "arm64"
    ∧ (∀ k, k ≠ "PLATFORM" → k ≠ "ARCH" →
        lookupEnv k (pkgEnv wC7.env) = lookupEnv k wC7.env) :=
  c7_package_environment oracle0 osc0 wC7 rfl

/-- C10: an installed Dep is not reinstalled — install returns None with
the world untouched, so the external command is never run — and in every
returning execution of install the Dep record comes back unchanged. -/
theorem c10_dep_install_frame (o : Oracle) (d : Dep) (w : World) :
    (d.installed = true → Dep.install o d w = .ok ((none, d), w))
    ∧ (∀ r d2 w2, Dep.install o d w = .ok ((r, d2), w2) → d2 = d) := by
  constructor
  · intro h
    simp [Dep.install, h]
  · intro r d2 w2 h
    unfold Dep.install at h
    split at h
    · split at h
      · simp only [Except.ok.injEq, Prod.mk.injEq] at h
        exact h.1.2.symm
      · split at h
        · simp only [Except.ok.injEq, Prod.mk.injEq] at h
          exact h.1.2.symm
        · simp at h
    · simp only [Except.ok.injEq, Prod.mk.injEq] at h
      exact h.1.2.symm

/-- The node dependency from deps.py, with its installed flag set. -/
def dep0 : Dep := ⟨"node", ["brew", "install", "node@20"], true, none, []⟩

/-- Witness for C10: the installed node dependency is left alone. -/
theorem c10_witness :
    Dep.install oracle0 dep0 w0 = Except.ok ((none, dep0), w0) :=
  (c10_dep_install_frame oracle0 dep0 w0).1 rfl

/-- Characterisation of a successful SemVer constructor run: the argument
is nonempty and the normalised version splits into exactly three parts,
each accepted by int() with the parsed values as the fields. -/
theorem semVer_init_ok_iff (ver : String) (s : SemVer) :
    SemVer.init ver = Except.ok s ↔
      ver ≠ "" ∧ ∃ a b c, pySplitOn '.' (pyNormalize ver) = [a, b, c]
        ∧ pyInt a = some s.major ∧ pyInt b = some s.minor
        ∧ pyInt c = some s.micro := by
  unfold SemVer.init
  by_cases hv : ver = ""
  · simp [hv]
  · rw [if_neg hv]
    constructor
    · intro h
      refine ⟨hv, ?_⟩
      split at h
      · rename_i a b c heq
        split at h
        · simp at h
        · rename_i ma hA
          split at h
          · simp at h
          · rename_i mb hB
            split at h
            · simp at h
            · rename_i mc hC
              simp only [Except.ok.injEq] at h
              subst h
              exact ⟨a, b, c, heq, hA, hB, hC⟩
      · simp at h
    · rintro ⟨-, a, b, c, hL, hA, hB, hC⟩
      rw [hL]
      simp only [hA, hB, hC]

/-- C8: the SemVer constructor raises exactly when its argument is the
empty string or, after removing a single leading v and stripping
surrounding whitespace, is not exactly three dot-separated integer
literals; when it succeeds, major, minor and micro are the three parsed
integers and __str__ renders v{major}.{minor}.{micro}. -/
theorem c8_semver_constructor (ver : String) :
    ((∃ s, SemVer.init ver = Except.ok s) ↔
      ¬(ver = "" ∨ ¬∃ a b c, pySplitOn '.' (pyNormalize ver) = [a, b, c]
          ∧ (pyInt a).isSome = true ∧ (pyInt b).isSome = true
          ∧ (pyInt c).isSome = true))
    ∧ (∀ s, SemVer.init ver = Except.ok s →
        (∃ a b c, pySplitOn '.' (pyNormalize ver) = [a, b, c]
          ∧ pyInt a = some s.major ∧ pyInt b = some s.minor
          ∧ pyInt c = some s.micro)
        ∧ SemVer.str s = "v" ++ toString s.major ++ "." ++ toString s.minor
            ++ "." ++ toString s.micro) := by
  constructor
  · constructor
    · rintro ⟨s, hs⟩
      obtain ⟨hne, a, b, c, hL, hA, hB, hC⟩ := (semVer_init_ok_iff ver s).mp hs
      intro hor
      rcases hor with h | h
      · exact hne h
      · exact h ⟨a, b, c, hL, by simp [hA], by simp [hB], by simp [hC]⟩
    · intro hor
      push_neg at hor
      obtain ⟨hne, a, b, c, hL, hA, hB, hC⟩ := hor
      obtain ⟨ma, hma⟩ := Option.isSome_iff_exists.mp hA
      obtain ⟨mb, hmb⟩ := Option.isSome_iff_exists.mp hB
      obtain ⟨mc, hmc⟩ := Option.isSome_iff_exists.mp hC
      exact ⟨⟨ma, mb, mc⟩, (semVer_init_ok_iff ver ⟨ma, mb, mc⟩).mpr
        ⟨hne, a, b, c, hL, hma, hmb, hmc⟩⟩
  · intro s hs
    obtain ⟨hne, a, b, c, hL, hA, hB, hC⟩ := (semVer_init_ok_iff ver s).mp hs
    exact ⟨⟨a, b, c, hL, hA, hB, hC⟩, rfl⟩

/-- Witness for C8: the version string the repository pins. -/
theorem c8_witness : ∃ s, SemVer.init "v1.29.7" = Except.ok s :=
  (c8_semver_constructor "v1.29.7").1.mpr (by
    intro hor
    rcases hor with h | h
    · exact absurd h (by decide)
    · exact h ⟨['1'], ['2', '9'], ['7'], by decide, by decide, by decide,
        by decide⟩)
